import Mathlib

/-!
Shallow embedding of `mvpa/misc/attributes.py` (PyMVPA): the classes
`CollectableAttribute` and `StateVariable`.

Python values relevant to the module are modelled by `Val`: the `None`
sentinel, integers, strings, and references to mutable list objects living
in an explicit heap (`Heap`).  Attribute names in Python are arbitrary
objects, so the `name` slot is also a `Val`.  Exceptions are modelled by
`Except PyErr`; in every raising code path of the source the raise happens
before any mutation, so a raising operation is modelled as a function
returning `.error e` with no successor state.

The process-wide ordering counter (`CollectableAttribute._instance_index`,
a class attribute) is threaded explicitly through the constructors.
-/

/-- Exceptions raised by the module: `ValueError` (invalid name),
`IndexError` (indexing `name[0]` on the empty string), and
`UnknownStateError` from `mvpa.misc.exceptions` (reading an unset state). -/
inductive PyErr where
  | valueError
  | indexError
  | unknownStateError
  deriving Repr, DecidableEq

/-- A Python value as used by this module: the `None` sentinel, an integer,
a string, or a reference to a mutable list object at a heap address. -/
inductive Val where
  | vnone
  | vint (n : Int)
  | vstr (s : String)
  | vref (a : Nat)
  deriving Repr, DecidableEq

/-- The heap of mutable list objects: address `a` holds the contents of the
list object at `a` (a list of integers). -/
abbrev Heap := List (List Int)

/-- In-place mutation of the list object at address `a` (e.g. `append`
replaces the contents with an extended list). -/
def heapSet (h : Heap) (a : Nat) (cell : List Int) : Heap :=
  h.set a cell

/-- `CollectableAttribute` instance state: `_instance_index`, `__doc__`,
`_CollectableAttribute__name`, `_value`, `_isset`. -/
structure CollectableAttribute where
  instance_index : Int
  doc : Val
  name : Val
  value : Val
  isset : Bool
  deriving Repr, DecidableEq

namespace CollectableAttribute

/-- `CollectableAttribute._get`: returns `self._value`.  (The source method
only reads; it is a pure function of the state.) -/
def get (a : CollectableAttribute) : Val :=
  a.value

/-- `CollectableAttribute._set`: stores the value and sets `_isset = True`.
The `init` flag only selects a debug message and has no effect on state. -/
def set (a : CollectableAttribute) (val : Val) : CollectableAttribute :=
  { a with value := val, isset := true }

/-- `CollectableAttribute.reset`: `self._isset = False`; nothing else. -/
def reset (a : CollectableAttribute) : CollectableAttribute :=
  { a with isset := false }

/-- `CollectableAttribute.__init__`, run with the base class's virtual
`reset` and `_set` (i.e. constructing a base-class instance).  Takes and
returns the class counter `_instance_index`.  When `index` is `none` the
counter is pre-incremented and used; an explicit index is taken verbatim.
The name is assigned directly (`self.__name = name`), without validation.
`self.reset()` on the fresh state sets `_isset = False`; a non-`None`
initial value is then stored via `self._set(value, init=True)`. -/
def init (counter : Int) (name : Val) (doc : Val) (index : Option Int)
    (value : Val) : CollectableAttribute × Int :=
  let p : Int × Int :=
    match index with
    | none => (counter + 1, counter + 1)
    | some i => (i, counter)
  let a : CollectableAttribute :=
    { instance_index := p.1, doc := doc, name := name,
      value := .vnone, isset := false }
  let a := a.reset
  let a := if value = .vnone then a else a.set value
  (a, p.2)

/-- `CollectableAttribute._setName`: `None` is stored; a string is checked
for the reserved prefix (`name[0] == '_'` raises `IndexError` on the empty
string, `ValueError` when the first character is an underscore); a
non-string non-`None` name raises `ValueError`.  All raises occur before
`self.__name = name`, so on error the attribute is unchanged. -/
def setName (a : CollectableAttribute) (name : Val) :
    Except PyErr CollectableAttribute :=
  match name with
  | .vnone => .ok { a with name := .vnone }
  | .vstr s =>
      match s.data with
      | [] => .error .indexError
      | c :: _ =>
          if c = '_' then .error .valueError
          else .ok { a with name := .vstr s }
  | _ => .error .valueError

end CollectableAttribute

/-- `StateVariable` instance state: the inherited base slots plus
`_isenabled` and `_defaultenabled`. -/
structure StateVariable extends CollectableAttribute where
  isenabled : Bool
  defaultenabled : Bool
  deriving Repr, DecidableEq

namespace StateVariable

/-- `StateVariable._get`: raises `UnknownStateError` when `isSet` is false,
otherwise returns `CollectableAttribute._get(self)`.  (The source method
only reads; it is a pure function of the state.) -/
def get (s : StateVariable) : Except PyErr Val :=
  if !s.isset then .error .unknownStateError
  else .ok s.toCollectableAttribute.get

/-- `StateVariable._set`: when `isEnabled`, delegates to
`CollectableAttribute._set`; otherwise only a debug message is emitted and
the state is untouched. -/
def set (s : StateVariable) (val : Val) : StateVariable :=
  if s.isenabled then
    { s with toCollectableAttribute := s.toCollectableAttribute.set val }
  else s

/-- `StateVariable.reset`: `CollectableAttribute.reset(self)` then
`self._value = None`. -/
def reset (s : StateVariable) : StateVariable :=
  let a := s.toCollectableAttribute.reset
  { s with toCollectableAttribute := { a with value := .vnone } }

/-- `StateVariable.enable`: a no-op when the gate already has the requested
value, otherwise flips `_isenabled`. -/
def enable (s : StateVariable) (value : Bool) : StateVariable :=
  if s.isenabled = value then s
  else { s with isenabled := value }

/-- `StateVariable.__init__`: runs `CollectableAttribute.__init__` with
`name`, `doc`, no index and no value (on the fresh state the virtual
`StateVariable.reset` called there coincides with the base reset, since
`_value` is already `None`, and `_set` is not reached because the base
`value` argument defaults to `None`), then stores `_isenabled` and
`_defaultenabled`.  The `ENFORCE_STATES_ENABLED` debug override is
inactive outside test mode and is not modelled. -/
def init (counter : Int) (name : Val) (enabled : Bool) (doc : Val) :
    StateVariable × Int :=
  let p := CollectableAttribute.init counter name doc none .vnone
  ({ toCollectableAttribute := p.1,
     isenabled := enabled, defaultenabled := enabled }, p.2)

end StateVariable

/-- Modelled from the spec: the deep-copy utility imported as
`mvpa.support.copy` is not part of this excerpt; per §6 it is "a deep-copy
utility: given an arbitrary value, returns an independent duplicate".
Atoms are immutable and returned as-is; a reference to a mutable list
object yields a reference to a freshly allocated object with the same
contents. -/
def copy_copy (h : Heap) (v : Val) : Heap × Val :=
  match v with
  | .vref a => (h ++ [h.getD a []], .vref h.length)
  | v => (h, v)

namespace CollectableAttribute

/-- `CollectableAttribute.__copy__` for a base-class instance:
`copied = self.__class__(name=self.name, doc=self.__doc__)` (index omitted,
so the class counter is incremented), then
`copied.value = copy.copy(self.value)` where `self.value` routes through
the base `_get` and the assignment through the base `_set`.
Returns (new counter, new heap, copied attribute). -/
def copyOp (counter : Int) (h : Heap) (a : CollectableAttribute) :
    Int × Heap × CollectableAttribute :=
  let p := init counter a.name a.doc none .vnone
  let q := copy_copy h a.get
  (p.2, q.1, p.1.set q.2)

end CollectableAttribute

namespace StateVariable

/-- `CollectableAttribute.__copy__` run on a `StateVariable`:
`self.__class__(name=self.name, doc=self.__doc__)` dispatches to
`StateVariable.__init__` (so `enabled` takes its default `True`), and
`self.value` routes through `StateVariable._get`, which raises
`UnknownStateError` when `isSet` is false; the assignment to
`copied.value` routes through `StateVariable._set` on the (enabled) copy. -/
def copyOp (counter : Int) (h : Heap) (s : StateVariable) :
    Except PyErr (Int × Heap × StateVariable) :=
  let p := init counter s.name true s.doc
  match s.get with
  | .error e => .error e
  | .ok v =>
      let q := copy_copy h v
      .ok (p.2, q.1, p.1.set q.2)

end StateVariable

/-- Constructing `n` base-class attributes in succession, each omitting the
explicit index argument, threading the class counter. -/
def initSeq (counter : Int) : Nat → List CollectableAttribute × Int
  | 0 => ([], counter)
  | n + 1 =>
      let p := CollectableAttribute.init counter .vnone .vnone none .vnone
      let q := initSeq p.2 n
      (p.1 :: q.1, q.2)

/-! ### Concrete sample states used by witnesses and counterexamples -/

/-- A freshly constructed, never-set `StateVariable` named "score"
(enabled, as by default). -/
def svFresh : StateVariable :=
  (StateVariable.init 0 (.vstr "score") true (.vstr "State variable")).1

/-- `svFresh` after an (enabled) set of the value 5. -/
def svHolding : StateVariable :=
  svFresh.set (.vint 5)

/-- `svHolding` after disabling the gate. -/
def svHoldingDisabled : StateVariable :=
  svHolding.enable false

/-- A freshly constructed base-class attribute named "u" with no initial
value. -/
def caFreshUnset : CollectableAttribute :=
  (CollectableAttribute.init 0 (.vstr "u") .vnone none .vnone).1

/-- A base-class attribute named "w" constructed with initial value 5 and
then reset: `isSet` is false but the internal slot still holds 5. -/
def caStale : CollectableAttribute :=
  ((CollectableAttribute.init 0 (.vstr "w") .vnone none (.vint 5)).1).reset

/-! ### Theorems for the claims -/

/-- C1 counterexample: the claim says constructing with a reserved-prefix
or non-string name fails with `ValueError`, but `__init__` assigns
`self.__name = name` directly without calling `_setName`: construction is
total, succeeds, and stores "_private" (resp. the integer 3, resp. "_x"
for a `StateVariable`) as the name. -/
theorem C1_counterexample :
    ((CollectableAttribute.init 0 (.vstr "_private") .vnone none .vnone).1).name
        = .vstr "_private" ∧
    ((CollectableAttribute.init 0 (.vint 3) .vnone none .vnone).1).name
        = .vint 3 ∧
    ((StateVariable.init 0 (.vstr "_x") true .vnone).1).name = .vstr "_x" :=
  ⟨rfl, rfl, rfl⟩

/-- C1 (amended): construction never validates the name.  Both
`CollectableAttribute.__init__` and `StateVariable.__init__` store any
name — reserved-prefix strings and non-strings included — verbatim and
raise no error (the constructors are total functions); the Invalid-name
`ValueError` is raised only by the explicit rename `_setName`. -/
theorem C1_init_stores_any_name (counter : Int) (name doc : Val)
    (index : Option Int) (value : Val) (enabled : Bool) :
    ((CollectableAttribute.init counter name doc index value).1).name = name ∧
    ((StateVariable.init counter name enabled doc).1).name = name := by
  refine ⟨?_, rfl⟩
  unfold CollectableAttribute.init
  cases index <;> by_cases hv : value = Val.vnone <;>
    simp [hv, CollectableAttribute.reset, CollectableAttribute.set]

/-- C2: reading a `StateVariable`'s value while `isSet` is false raises
`UnknownStateError`; while `isSet` is true it returns exactly the stored
value.  The source `_get` only reads the state (it is embedded as a pure
function), so a read — failing or not — leaves the variable unchanged;
the gate `_isenabled` is not consulted by `_get` at all, as the statement's
quantification over every `s` (enabled or disabled) reflects. -/
theorem C2_stateVariable_get (s : StateVariable) :
    (s.isset = false → s.get = .error .unknownStateError) ∧
    (s.isset = true → s.get = .ok s.value) := by
  constructor <;> intro h <;>
    simp [StateVariable.get, CollectableAttribute.get, h]

/-- C2 witness: the fresh unset variable fails to read; after an enabled
set of 5 the read returns 5. -/
theorem C2_witness :
    svFresh.get = .error .unknownStateError ∧
    svHolding.get = .ok (.vint 5) :=
  ⟨(C2_stateVariable_get svFresh).1 (by decide),
   ((C2_stateVariable_get svHolding).2 (by decide)).trans
     (congrArg Except.ok (by decide))⟩

/-- C3: setting a disabled `StateVariable` changes nothing at all (the
whole state, hence in particular `isSet` and the stored value, is
unchanged, and no error is raised — `set` is a total function); while
enabled the write delegates to the base set, storing `v` and making
`isSet` true. -/
theorem C3_stateVariable_set (s : StateVariable) (v : Val) :
    (s.isenabled = false → s.set v = s) ∧
    (s.isenabled = true →
      (s.set v).value = v ∧ (s.set v).isset = true) := by
  constructor <;> intro h <;>
    simp [StateVariable.set, CollectableAttribute.set, h]

/-- C3 witness: a disabled write of 9 is discarded wholesale; an enabled
write of 7 stores 7 and sets the flag. -/
theorem C3_witness :
    (svHoldingDisabled.set (.vint 9) = svHoldingDisabled) ∧
    ((svFresh.set (.vint 7)).value = .vint 7 ∧
      (svFresh.set (.vint 7)).isset = true) :=
  ⟨(C3_stateVariable_set svHoldingDisabled (.vint 9)).1 (by decide),
   (C3_stateVariable_set svFresh (.vint 7)).2 (by decide)⟩

/-- C5: `StateVariable.reset` clears `isSet`, nulls the stored value slot
to the `None` sentinel, leaves the enabled gate untouched, and a
subsequent read raises `UnknownStateError` — in any starting state,
enabled or disabled, set or unset. -/
theorem C5_stateVariable_reset (s : StateVariable) :
    s.reset.isset = false ∧ s.reset.value = .vnone ∧
    s.reset.isenabled = s.isenabled ∧
    s.reset.get = .error .unknownStateError := by
  simp [StateVariable.reset, CollectableAttribute.reset, StateVariable.get]

/-- C6: the base-class `reset` clears `isSet` and changes nothing else:
the internal value slot keeps the previously stored value, and name, doc
and index are unchanged. -/
theorem C6_collectable_reset (a : CollectableAttribute) :
    a.reset.isset = false ∧ a.reset.value = a.value ∧
    a.reset.name = a.name ∧ a.reset.doc = a.doc ∧
    a.reset.instance_index = a.instance_index := by
  simp [CollectableAttribute.reset]

/-- C7 counterexample: the claim says every string not starting with '_'
is accepted and stored, but renaming to the empty string "" hits
`name[0]` on a zero-length string and raises `IndexError`: the empty
string is rejected, not accepted. -/
theorem C7_counterexample :
    caFreshUnset.setName (.vstr "") = .error .indexError := rfl

/-- C7 (amended): `_setName` fails with `ValueError` for every non-`None`
non-string name and for every string whose first character is '_', and
fails with `IndexError` for the empty string (indexing its first
character); a failed rename returns no successor state — the raise in the
source precedes the assignment `self.__name = name`, so the stored name is
unchanged (renames are atomic with respect to failure).  Any other
(non-empty, not '_'-initial) string, or `None`, is accepted and stored;
on success every other slot of the attribute is untouched. -/
theorem C7_setName (a : CollectableAttribute) :
    (∀ n : Int, a.setName (.vint n) = .error .valueError) ∧
    (∀ r : Nat, a.setName (.vref r) = .error .valueError) ∧
    (∀ s : String, ∀ cs, s.data = '_' :: cs →
        a.setName (.vstr s) = .error .valueError) ∧
    (∀ s : String, s.data = [] →
        a.setName (.vstr s) = .error .indexError) ∧
    (a.setName .vnone = .ok { a with name := .vnone }) ∧
    (∀ s : String, ∀ c cs, s.data = c :: cs → c ≠ '_' →
        a.setName (.vstr s) = .ok { a with name := .vstr s }) := by
  refine ⟨fun n => rfl, fun r => rfl, ?_, ?_, rfl, ?_⟩
  · intro s cs hs
    simp [CollectableAttribute.setName, hs]
  · intro s hs
    simp [CollectableAttribute.setName, hs]
  · intro s c cs hs hc
    simp [CollectableAttribute.setName, hs, hc]

/-- C7 witness: concrete renames on a sample attribute — an integer name
and a '_'-initial name raise `ValueError`, the empty string raises
`IndexError`, `None` and "ok" are accepted and stored. -/
theorem C7_witness :
    caStale.setName (.vint 7) = .error .valueError ∧
    caStale.setName (.vstr "_p") = .error .valueError ∧
    caStale.setName (.vstr "") = .error .indexError ∧
    caStale.setName .vnone = .ok { caStale with name := .vnone } ∧
    caStale.setName (.vstr "ok") = .ok { caStale with name := .vstr "ok" } :=
  ⟨(C7_setName caStale).1 7,
   (C7_setName caStale).2.2.1 "_p" ['p'] rfl,
   (C7_setName caStale).2.2.2.1 "" rfl,
   (C7_setName caStale).2.2.2.2.1,
   (C7_setName caStale).2.2.2.2.2 "ok" 'o' ['k'] rfl (by decide)⟩

/-- The indices produced by `n` successive constructions that omit the
explicit index argument, starting from counter `c`, are exactly
`c+1, c+2, ..., c+n`. -/
theorem initSeq_indices (n : Nat) : ∀ c : Int,
    ((initSeq c n).1).map (fun a => a.instance_index)
      = (List.range n).map (fun k : Nat => c + 1 + (k : Int)) := by
  induction n with
  | zero => intro c; simp [initSeq]
  | succ n ih =>
      intro c
      have h1 : (CollectableAttribute.init c .vnone .vnone none .vnone).1.instance_index
          = c + 1 := rfl
      have h2 : (CollectableAttribute.init c .vnone .vnone none .vnone).2 = c + 1 := rfl
      simp only [initSeq, List.map_cons, h1, h2, ih (c + 1),
        List.range_succ_eq_map, List.map_map]
      refine congrArg₂ List.cons (by push_cast; ring) ?_
      refine List.map_congr_left fun k _ => ?_
      simp only [Function.comp_apply]
      push_cast
      ring

/-- C8: constructing `n` attributes in succession while omitting the index
argument assigns strictly increasing indices in construction order, each
drawn by pre-incrementing the process-wide counter; constructing with an
explicit index returns the counter untouched, while omitting it advances
the counter by one. -/
theorem C8_index_counter (c : Int) (n : Nat) :
    ((((initSeq c n).1).map (fun a => a.instance_index))).Pairwise (· < ·) ∧
    (∀ name doc i value,
        (CollectableAttribute.init c name doc (some i) value).2 = c) ∧
    (∀ name doc value,
        (CollectableAttribute.init c name doc none value).2 = c + 1) := by
  refine ⟨?_, fun name doc i value => rfl, fun name doc value => rfl⟩
  rw [initSeq_indices]
  refine List.Pairwise.map _ (fun a b hab => ?_) (List.pairwise_lt_range n)
  omega

/-- C9: copying a `StateVariable` whose `isSet` is false raises
`UnknownStateError` and no copy is produced: `__copy__` reads
`self.value` through `StateVariable._get`, which fails on an unset
variable. -/
theorem C9_copy_unset_stateVariable (counter : Int) (h : Heap)
    (s : StateVariable) (hs : s.isset = false) :
    s.copyOp counter h = .error .unknownStateError := by
  simp [StateVariable.copyOp, StateVariable.get, hs]

/-- C9 witness: copying the fresh unset state variable fails with
`UnknownStateError`. -/
theorem C9_witness :
    svFresh.copyOp 0 [] = .error .unknownStateError :=
  C9_copy_unset_stateVariable 0 [] svFresh (by decide)

/-- C10 counterexample: the claim says a base-class copy of an unset
attribute stores `None`, but `caStale` (set to 5, then reset) has
`isSet = false` with 5 still in its internal slot, and its copy holds 5,
not the `None` sentinel. -/
theorem C10_counterexample :
    caStale.isset = false ∧
    (CollectableAttribute.copyOp 0 [] caStale).2.2.value = .vint 5 ∧
    (CollectableAttribute.copyOp 0 [] caStale).2.2.value ≠ .vnone :=
  ⟨rfl, rfl, by decide⟩

/-- C10 (amended): copying a base-class `CollectableAttribute` whose
`isSet` is false succeeds (the base `__copy__` is total) and yields a copy
whose `isSet` is true — the copy operation unconditionally assigns the
value it read from the original through the set path — and whose stored
value is the (deep-copied) content of the original's internal slot: the
`None` sentinel exactly when the slot holds `None` (e.g. never-set
attributes), and the stale previously-stored value otherwise. -/
theorem C10_copy_unset_collectable (counter : Int) (h : Heap)
    (a : CollectableAttribute) (ha : a.isset = false) :
    (a.copyOp counter h).2.2.isset = true ∧
    (a.copyOp counter h).2.2.value = (copy_copy h a.value).2 ∧
    (a.value = .vnone → (a.copyOp counter h).2.2.value = .vnone) := by
  refine ⟨?_, ?_, ?_⟩
  · simp [CollectableAttribute.copyOp, CollectableAttribute.set]
  · simp [CollectableAttribute.copyOp, CollectableAttribute.set,
      CollectableAttribute.get]
  · intro hv
    simp [CollectableAttribute.copyOp, CollectableAttribute.set,
      CollectableAttribute.get, hv, copy_copy]

/-- C10 witness: the copy of the fresh never-set base attribute has
`isSet = true` and value `None`. -/
theorem C10_witness :
    caFreshUnset.isset = false ∧
    (CollectableAttribute.copyOp 0 [] caFreshUnset).2.2.isset = true ∧
    (CollectableAttribute.copyOp 0 [] caFreshUnset).2.2.value = .vnone :=
  ⟨by decide,
   (C10_copy_unset_collectable 0 [] caFreshUnset (by decide)).1,
   (C10_copy_unset_collectable 0 [] caFreshUnset (by decide)).2.2 (by decide)⟩

/-- Reading the extended heap below the old length sees the old cells. -/
theorem heap_getD_append (l : Heap) (x : List Int) (i : Nat)
    (hi : i < l.length) :
    (l ++ [x]).getD i [] = l.getD i [] := by
  simp [List.getD_eq_getElem?_getD, List.getElem?_append_left hi]

/-- The freshly appended heap cell sits at the old length. -/
theorem heap_getD_append_length (l : Heap) (x : List Int) :
    (l ++ [x]).getD l.length [] = x := by
  simp [List.getD_eq_getElem?_getD,
    List.getElem?_append_right (Nat.le_refl l.length)]

/-- Mutating one heap cell leaves every other address unchanged. -/
theorem heap_getD_set_ne (l : Heap) (i j : Nat) (cell : List Int)
    (hij : i ≠ j) :
    (heapSet l i cell).getD j [] = l.getD j [] := by
  simp [heapSet, List.getD_eq_getElem?_getD, List.getElem?_set_ne hij]

/-- A base-class attribute named "weight" holding (a reference to) a
mutable list object at heap address 0. -/
def caComp : CollectableAttribute :=
  (CollectableAttribute.init 0 (.vstr "weight") .vnone none (.vref 0)).1

/-- An enabled state variable named "scores" holding (a reference to) a
mutable list object at heap address 0. -/
def svComp : StateVariable :=
  ((StateVariable.init 0 (.vstr "scores") true (.vstr "State variable")).1).set
    (.vref 0)

/-- C4: for an attribute with a set (compound) value, `__copy__` produces a
new instance of the same concrete class — `self.__class__` dispatches the
constructor, reflected here by `CollectableAttribute.copyOp` returning a
`CollectableAttribute` and `StateVariable.copyOp` a `StateVariable` — with
the same name and doc, whose value is an independently-owned deep-copy
duplicate: the copy's value refers to a freshly allocated heap cell,
distinct from the original's, holding equal contents, so mutating any cell
reachable from the copy's value (there is exactly one) is not observable
on the original's value. -/
theorem C4_copy_deep_independent (counter : Int) (h : Heap)
    (a : CollectableAttribute) (s : StateVariable) (r q : Nat)
    (ha : a.isset = true) (hav : a.value = .vref r) (hr : r < h.length)
    (hs : s.isset = true) (hsv : s.value = .vref q) (hq : q < h.length) :
    ((a.copyOp counter h).2.2.name = a.name ∧
     (a.copyOp counter h).2.2.doc = a.doc ∧
     (a.copyOp counter h).2.2.isset = true ∧
     (a.copyOp counter h).2.2.value = .vref h.length ∧
     h.length ≠ r ∧
     (a.copyOp counter h).2.1.getD h.length [] = h.getD r [] ∧
     (∀ cell, (heapSet (a.copyOp counter h).2.1 h.length cell).getD r []
        = h.getD r [])) ∧
    (∃ c' h' sc, s.copyOp counter h = .ok (c', h', sc) ∧
     sc.name = s.name ∧ sc.doc = s.doc ∧ sc.isset = true ∧
     sc.value = .vref h.length ∧
     h.length ≠ q ∧
     h'.getD h.length [] = h.getD q [] ∧
     (∀ cell, (heapSet h' h.length cell).getD q [] = h.getD q [])) := by
  have hcopy : a.copyOp counter h =
      (counter + 1, h ++ [h.getD r []],
       { instance_index := counter + 1, doc := a.doc, name := a.name,
         value := .vref h.length, isset := true }) := by
    simp [CollectableAttribute.copyOp, CollectableAttribute.init,
      CollectableAttribute.reset, CollectableAttribute.set,
      CollectableAttribute.get, hav, copy_copy]
  have hne : h.length ≠ r := Nat.ne_of_gt hr
  have hqne : h.length ≠ q := Nat.ne_of_gt hq
  constructor
  · rw [hcopy]
    refine ⟨rfl, rfl, rfl, rfl, hne, heap_getD_append_length h _, fun cell => ?_⟩
    rw [heap_getD_set_ne _ _ _ _ hne]
    exact heap_getD_append h _ r hr
  · have hsget : s.get = .ok (.vref q) := by
      simp [StateVariable.get, CollectableAttribute.get, hs]
      exact hsv
    have hsc : (StateVariable.init counter s.name true s.doc).1.set
        (.vref h.length) =
        { toCollectableAttribute :=
            { instance_index := counter + 1, doc := s.doc, name := s.name,
              value := .vref h.length, isset := true },
          isenabled := true, defaultenabled := true } := rfl
    refine ⟨(StateVariable.init counter s.name true s.doc).2,
      h ++ [h.getD q []],
      (StateVariable.init counter s.name true s.doc).1.set (.vref h.length),
      ?_, ?_, ?_, ?_, ?_, hqne, heap_getD_append_length h _, fun cell => ?_⟩
    · simp [StateVariable.copyOp, hsget, copy_copy]
    · rw [hsc]
    · rw [hsc]
    · rw [hsc]
    · rw [hsc]
    · rw [heap_getD_set_ne _ _ _ _ hqne]
      exact heap_getD_append h _ q hq

/-- C4 witness: copying the concrete attributes over the heap `[[1,2,3]]`
keeps name and doc, the copy's value lands on the fresh address 1, and any
mutation through the copy's object leaves the original's object `[1,2,3]`
intact. -/
theorem C4_witness :
    caComp.isset = true ∧ svComp.isset = true ∧
    (CollectableAttribute.copyOp 5 [[1, 2, 3]] caComp).2.2.name
        = caComp.name ∧
    (CollectableAttribute.copyOp 5 [[1, 2, 3]] caComp).2.2.value = .vref 1 ∧
    (∀ cell,
      (heapSet (CollectableAttribute.copyOp 5 [[1, 2, 3]] caComp).2.1 1
          cell).getD 0 [] = [1, 2, 3]) := by
  have H := C4_copy_deep_independent 5 [[1, 2, 3]] caComp svComp 0 0
    (by decide) (by decide) (by decide) (by decide) (by decide) (by decide)
  refine ⟨by decide, by decide, H.1.1, ?_, fun cell => ?_⟩
  · simpa using H.1.2.2.2.1
  · simpa using H.1.2.2.2.2.2.2 cell
